import Mathlib

/-!
# Bio-Guard web client (`script.js`): session state and payload decoding

A shallow embedding of `src/script.js`.  The module-level variables, the five
DOM elements the script writes to, the interval timers and the console are
the fields of one `World` record; every function of the script is a function
from `World` to `World`.  What the browser decides (which step of the
connection chain rejects, which timer id `setInterval` returns, how
`toLowerCase` treats non-ASCII letters) is an explicit argument.
-/

namespace BioGuard

/-! ## Strings -/

/-- A JavaScript string, as the sequence of its Unicode scalar values.  The
texts handled here come out of `TextDecoder.decode` or are literals, so they
hold no lone surrogate, and every search pattern of the script lies in the
Basic Multilingual Plane: searching by scalar value and searching by UTF-16
code unit find the same occurrences. -/
abbrev JSString := List Char

/-- The method `String.prototype.includes(pat)`: does `pat` occur in `s` at some position. -/
def includes : JSString → JSString → Bool
  | [], pat => pat.isPrefixOf []
  | c :: cs, pat => pat.isPrefixOf (c :: cs) || includes cs pat

/-- The method `String.prototype.replace(pat, rep)` with a string pattern: the first
occurrence of `pat`, wherever it stands, is replaced by `rep`; a string without
an occurrence is returned as it is.  (`rep` is only ever `''` in the script,
so replacement patterns with `$` do not arise.) -/
def replace : JSString → JSString → JSString → JSString
  | [], pat, rep => if pat.isPrefixOf [] then rep else []
  | c :: cs, pat, rep =>
    if pat.isPrefixOf (c :: cs) then rep ++ (c :: cs).drop pat.length
    else c :: replace cs pat rep

/-- Scan of `split` for a non-empty separator.  `skip` counts the characters of
a separator occurrence still to be passed over, `cur` is the segment being
collected. -/
def splitAux (sep : JSString) : JSString → Nat → JSString → List JSString
  | [], _, cur => [cur]
  | _ :: cs, skip + 1, cur => splitAux sep cs skip cur
  | c :: cs, 0, cur =>
    if sep.isPrefixOf (c :: cs) then cur :: splitAux sep cs (sep.length - 1) []
    else splitAux sep cs 0 (cur ++ [c])

/-- The method `String.prototype.split(sep)`: the segments between the non-overlapping
occurrences of `sep`, found left to right.  With an empty separator the
string is cut into its characters. -/
def split (s sep : JSString) : List JSString :=
  if sep = [] then s.map (fun c => [c]) else splitAux sep s 0 []

/-- The method `String.prototype.toLowerCase` on text whose code points are all ASCII:
`A`–`Z` become `a`–`z`, everything else stays. -/
def toLowerCaseAscii (s : JSString) : JSString := s.map Char.toLower

/-- What is assumed of the browser's `toLowerCase`: on a string of ASCII code
points it is the ASCII lowering.  Nothing is assumed about other strings. -/
def LowersAscii (lower : JSString → JSString) : Prop :=
  ∀ s : JSString, (∀ c ∈ s, c.toNat < 128) → lower s = toLowerCaseAscii s

/-- Decimal text of a non-negative integer, as a template literal renders it. -/
def numberToString (n : Nat) : JSString := (Nat.repr n).toList

/-! ## The page and the session -/

/-- An exception value; only its `message` is read by the script. -/
structure JSError where
  message : JSString
deriving DecidableEq

/-- The functions of the script that are installed as callbacks. -/
inductive Handler where
  | connectToBioGuard
  | disconnect
  | onDisconnected
  | handleDataReceived
  | readCharacteristicValue
deriving DecidableEq

/-- The console method that was called. -/
inductive LogLevel where
  | log
  | warn
  | error
deriving DecidableEq

/-- One argument of a console call. -/
inductive LogArg where
  | text (s : JSString)
  | error (e : JSError)
deriving DecidableEq

/-- One console call. -/
structure LogEntry where
  level : LogLevel
  args : List LogArg
deriving DecidableEq

/-- Handle of an interval timer.  `setInterval` hands out integers greater than
zero, so a handle is never falsy. -/
abbrev TimerId := ℕ+

/-- The peripheral picked by `requestDevice`, with the listeners added to it. -/
structure BluetoothDevice where
  name : JSString
  listeners : List (JSString × Handler)
deriving DecidableEq

/-- The GATT server object returned by `gatt.connect()`. -/
structure BluetoothRemoteGATTServer where
  id : Nat
deriving DecidableEq

/-- The characteristic returned by `getCharacteristic`, with its listeners. -/
structure BluetoothRemoteGATTCharacteristic where
  id : Nat
  listeners : List (JSString × Handler)
deriving DecidableEq

/-- The element `#connectBtn`. -/
structure ConnectBtn where
  innerHTML : JSString
  disabled : Bool
  onclick : Option Handler
deriving DecidableEq

/-- The element `#status`. -/
structure StatusElement where
  textContent : JSString
  className : JSString
deriving DecidableEq

/-- The element `#thermometerFill`: its class list and `style.height`. -/
structure ThermometerFill where
  classList : List JSString
  height : JSString
deriving DecidableEq

/-- The element `#rgbData`. -/
structure RgbDataElement where
  innerHTML : JSString
deriving DecidableEq

/-- The element `#ldrValue`. -/
structure LdrValueElement where
  textContent : JSString
deriving DecidableEq

/-- Everything the script reads or writes: its five module-level variables
(lines 2–6), the five DOM elements (lines 13–17), the active interval timers,
the console and the alerts shown. -/
structure World where
  bluetoothDevice : Option BluetoothDevice
  bluetoothServer : Option BluetoothRemoteGATTServer
  characteristic : Option BluetoothRemoteGATTCharacteristic
  isConnected : Bool
  dataReadInterval : Option TimerId
  connectBtn : ConnectBtn
  statusElement : StatusElement
  thermometerFill : ThermometerFill
  rgbDataElement : RgbDataElement
  ldrValueElement : LdrValueElement
  timers : List TimerId
  console : List LogEntry
  alerts : List JSString
deriving DecidableEq

/-- A console call. -/
def World.log (w : World) (level : LogLevel) (args : List LogArg) : World :=
  { w with console := w.console ++ [⟨level, args⟩] }

/-- The method `DOMTokenList.remove(...tokens)`. -/
def classListRemove (classList tokens : List JSString) : List JSString :=
  classList.filter (fun t => !tokens.contains t)

/-- The method `DOMTokenList.add(token)`: a token already present is not added again. -/
def classListAdd (classList : List JSString) (token : JSString) : List JSString :=
  if classList.contains token then classList else classList ++ [token]

/-- The method `EventTarget.addEventListener`: the same listener is registered once. -/
def addEventListener (listeners : List (JSString × Handler)) (type : JSString)
    (handler : Handler) : List (JSString × Handler) :=
  if listeners.contains (type, handler) then listeners else listeners ++ [(type, handler)]

/-- The function `clearInterval(id)`. -/
def clearInterval (timers : List TimerId) (id : TimerId) : List TimerId :=
  timers.filter (fun t => t ≠ id)

/-- The module-level variables as lines 2–6 initialise them. -/
def World.IsInitial (w : World) : Prop :=
  w.bluetoothDevice = none ∧ w.bluetoothServer = none ∧ w.characteristic = none ∧
    w.isConnected = false ∧ w.dataReadInterval = none

instance (w : World) : Decidable w.IsInitial := by
  unfold World.IsInitial; infer_instance

/-- A page at load: the variables as lines 2–6 initialise them, no timer, an
empty console.  What the elements hold at load comes from the HTML page, which
is not part of the script: here a connect button and empty elements. -/
def World.initial : World where
  bluetoothDevice := none
  bluetoothServer := none
  characteristic := none
  isConnected := false
  dataReadInterval := none
  connectBtn := ⟨"Conectar ao Bio-Guard via Bluetooth".toList, false, some .connectToBioGuard⟩
  statusElement := ⟨[], []⟩
  thermometerFill := ⟨[], []⟩
  rgbDataElement := ⟨[]⟩
  ldrValueElement := ⟨[]⟩
  timers := []
  console := []
  alerts := []

/-! ## The functions of the script -/

/-- Lines 135–138. -/
def updateStatus (w : World) (message type : JSString) : World :=
  { w with statusElement := ⟨message, "status ".toList ++ type⟩ }

/-- Line 109: the contamination segment with the first occurrence of
"Contaminação: " removed, in lower case. -/
def contaminacaoNivel (toLowerCase : JSString → JSString) (contaminacaoInfo : JSString) :
    JSString :=
  toLowerCase (replace contaminacaoInfo "Contaminação: ".toList [])

/-- Lines 87–132.  `value` is the text that `new TextDecoder().decode` yields for
the event; `toLowerCase` is the browser's method.  The five elements exist,
so nothing in the body throws and the `catch` block is never entered. -/
def handleDataReceived (toLowerCase : JSString → JSString) (w : World) (value : JSString) :
    World :=
  let w := w.log .log [.text "Dados recebidos:".toList, .text value]
  let parts := split value " | ".toList
  if 3 ≤ parts.length then
    let corInfo := parts.getD 0 []
    let contaminacaoInfo := parts.getD 1 []
    let luzInfo := parts.getD 2 []
    let w := { w with rgbDataElement :=
      ⟨"<div>".toList ++ corInfo ++ "</div><div>".toList ++ contaminacaoInfo ++ "</div>".toList⟩ }
    let w := { w with ldrValueElement := ⟨replace luzInfo "Intensidade Luz: ".toList []⟩ }
    let nivel := contaminacaoNivel toLowerCase contaminacaoInfo
    let classList := classListRemove w.thermometerFill.classList
      ["level-baixa".toList, "level-media".toList, "level-alta".toList]
    let (classList, fillHeight) :=
      if includes nivel "muito escuro".toList then
        (classListAdd classList "level-alta".toList, 100)
      else if includes nivel "normal".toList then
        (classListAdd classList "level-media".toList, 66)
      else if includes nivel "muito claro".toList then
        (classListAdd classList "level-baixa".toList, 33)
      else (classList, 0)
    { w with thermometerFill := ⟨classList, numberToString fillHeight ++ "%".toList⟩ }
  else
    w.log .warn [.text "Formato de dados inesperado:".toList, .text value]

/-- Lines 141–155. -/
def onDisconnected (w : World) : World :=
  let w := { w with isConnected := false }
  let w := { w with connectBtn :=
    ⟨"Conectar ao Bio-Guard via Bluetooth".toList, false, some .connectToBioGuard⟩ }
  let w := updateStatus w "Desconectado - Clique para conectar".toList "disconnected".toList
  let w := w.log .log [.text "Dispositivo Bluetooth desconectado.".toList]
  match w.dataReadInterval with
  | some id =>
    let w := { w with timers := clearInterval w.timers id }
    let w := { w with dataReadInterval := none }
    w.log .log [.text "Intervalo de leitura de dados parado.".toList]
  | none => w

/-- Lines 165–174.  `readError` is the rejection of `readValue()`, if it rejects;
a value that is read arrives as a `characteristicvaluechanged` event, that is
as a later call of `handleDataReceived`. -/
def readCharacteristicValue (w : World) (readError : Option JSError) : World :=
  if w.characteristic.isSome && w.isConnected then
    match readError with
    | none => w
    | some error => w.log .error [.text "Erro ao ler característica:".toList, .error error]
  else w

/-- How far a call of `connectToBioGuard` gets: what the browser answers at
each awaited step. -/
inductive ConnectOutcome where
  | unsupported
  | requestDeviceRejected (error : JSError)
  | gattConnectRejected (device : BluetoothDevice) (error : JSError)
  | getPrimaryServiceRejected (device : BluetoothDevice) (server : BluetoothRemoteGATTServer)
      (error : JSError)
  | getCharacteristicRejected (device : BluetoothDevice) (server : BluetoothRemoteGATTServer)
      (error : JSError)
  | startNotificationsRejected (device : BluetoothDevice) (server : BluetoothRemoteGATTServer)
      (char : BluetoothRemoteGATTCharacteristic) (error : JSError)
  | established (device : BluetoothDevice) (server : BluetoothRemoteGATTServer)
      (char : BluetoothRemoteGATTCharacteristic) (timer : TimerId)

/-- Lines 28–34: up to the call of `requestDevice`. -/
def connectStart (w : World) : World :=
  let w := { w with connectBtn := { w.connectBtn with
    innerHTML := "<span class=\"loading\"></span> Conectando...".toList, disabled := true } }
  let w := updateStatus w "Procurando dispositivos...".toList "disconnected".toList
  w.log .log [.text "Solicitando dispositivo Bluetooth...".toList]

/-- Lines 35–49: from the device being picked up to the call of `gatt.connect`. -/
def connectDeviceSelected (w : World) (device : BluetoothDevice) : World :=
  let w := { w with bluetoothDevice := some device }
  let w := w.log .log [.text "Dispositivo selecionado:".toList, .text device.name]
  let w := updateStatus w ("Conectando ao ".toList ++ device.name ++ "...".toList)
    "disconnected".toList
  let w := { w with bluetoothDevice := some { device with
    listeners := addEventListener device.listeners "gattserverdisconnected".toList
      .onDisconnected } }
  w.log .log [.text "Conectando ao servidor GATT...".toList]

/-- Lines 50–53: from the server being connected to the call of `getPrimaryService`. -/
def connectServerConnected (w : World) (server : BluetoothRemoteGATTServer) : World :=
  let w := { w with bluetoothServer := some server }
  w.log .log [.text "Obtendo serviço primário...".toList]

/-- Lines 53–56: from the service being found to the call of `getCharacteristic`. -/
def connectServiceFound (w : World) : World :=
  w.log .log [.text "Obtendo característica...".toList]

/-- Lines 56–60: from the characteristic being found to the call of
`startNotifications`. -/
def connectCharacteristicFound (w : World) (char : BluetoothRemoteGATTCharacteristic) :
    World :=
  let w := { w with characteristic := some char }
  w.log .log [.text "Iniciando notificações...".toList]

/-- Lines 62–75, run in one piece once notifications are on; `timer` is the
handle that `setInterval` returns. -/
def connectEstablished (w : World) (char : BluetoothRemoteGATTCharacteristic)
    (timer : TimerId) : World :=
  let w := { w with characteristic := some { char with
    listeners := addEventListener char.listeners "characteristicvaluechanged".toList
      .handleDataReceived } }
  let w := { w with isConnected := true }
  let w := { w with connectBtn := ⟨"Desconectar".toList, false, some .disconnect⟩ }
  let w := updateStatus w "Conectado com sucesso!".toList "connected".toList
  let w := { w with dataReadInterval := some timer, timers := w.timers ++ [timer] }
  w.log .log [.text "Conexão estabelecida com sucesso!".toList]

/-- Lines 77–83: the `catch` block. -/
def connectFailed (w : World) (error : JSError) : World :=
  let w := w.log .error [.text "Erro na conexão:".toList, .error error]
  let w := { w with connectBtn :=
    ⟨"Conectar ao Bio-Guard via Bluetooth".toList, false, some .connectToBioGuard⟩ }
  updateStatus w ("Erro na conexão: ".toList ++ error.message) "disconnected".toList

/-- Lines 20–84, one call from entry to return. -/
def connectToBioGuard (w : World) : ConnectOutcome → World
  | .unsupported =>
    { w with alerts := w.alerts ++
      ["Web Bluetooth não é suportado neste navegador. Use Chrome ou Edge.".toList] }
  | .requestDeviceRejected error => connectFailed (connectStart w) error
  | .gattConnectRejected device error =>
    connectFailed (connectDeviceSelected (connectStart w) device) error
  | .getPrimaryServiceRejected device server error =>
    connectFailed (connectServerConnected (connectDeviceSelected (connectStart w) device) server)
      error
  | .getCharacteristicRejected device server error =>
    connectFailed (connectServiceFound
      (connectServerConnected (connectDeviceSelected (connectStart w) device) server)) error
  | .startNotificationsRejected device server char error =>
    connectFailed (connectCharacteristicFound (connectServiceFound
      (connectServerConnected (connectDeviceSelected (connectStart w) device) server)) char) error
  | .established device server char timer =>
    connectEstablished (connectCharacteristicFound (connectServiceFound
      (connectServerConnected (connectDeviceSelected (connectStart w) device) server)) char)
      char timer

/-- One event of the session: a whole call of `connectToBioGuard` with any
outcome, the disconnect callback, a poll tick, a received payload. -/
inductive Step (toLowerCase : JSString → JSString) : World → World → Prop where
  | connectToBioGuard (w : World) (outcome : ConnectOutcome) :
      Step toLowerCase w (connectToBioGuard w outcome)
  | onDisconnected (w : World) : Step toLowerCase w (onDisconnected w)
  | readCharacteristicValue (w : World) (readError : Option JSError) :
      Step toLowerCase w (readCharacteristicValue w readError)
  | handleDataReceived (w : World) (value : JSString) :
      Step toLowerCase w (handleDataReceived toLowerCase w value)

/-- The states of the page after any finite sequence of events from load. -/
inductive Reachable (toLowerCase : JSString → JSString) : World → Prop where
  | init (w : World) : w.IsInitial → Reachable toLowerCase w
  | step (w w2 : World) : Reachable toLowerCase w → Step toLowerCase w w2 →
      Reachable toLowerCase w2

/-! ## Vocabulary of the statements -/

/-- The three style-bucket classes of the fill element. -/
def bucketClasses : List JSString :=
  ["level-baixa".toList, "level-media".toList, "level-alta".toList]

/-- The contamination segment of a payload: `parts[1]`. -/
def contaminacaoInfoOf (value : JSString) : JSString :=
  (split value " | ".toList).getD 1 []

/-- The fill element after a payload of at least three segments, as a function
of the prior class list and of the lowered contamination text. -/
def fillAfter (classList : List JSString) (nivel : JSString) : ThermometerFill :=
  let cleared := classListRemove classList bucketClasses
  if includes nivel "muito escuro".toList then
    ⟨classListAdd cleared "level-alta".toList, "100%".toList⟩
  else if includes nivel "normal".toList then
    ⟨classListAdd cleared "level-media".toList, "66%".toList⟩
  else if includes nivel "muito claro".toList then
    ⟨classListAdd cleared "level-baixa".toList, "33%".toList⟩
  else ⟨cleared, "0%".toList⟩

/-- The bucket classes on a class list, in order. -/
def bucketsOf (classList : List JSString) : List JSString :=
  classList.filter (fun c => bucketClasses.contains c)

/-- The classes of a class list that are not bucket classes, in order. -/
def othersOf (classList : List JSString) : List JSString :=
  classList.filter (fun c => !bucketClasses.contains c)

/-- The bucket class that a lowered contamination text selects, if any
(lines 113–122). -/
def bucketFor (nivel : JSString) : List JSString :=
  if includes nivel "muito escuro".toList then ["level-alta".toList]
  else if includes nivel "normal".toList then ["level-media".toList]
  else if includes nivel "muito claro".toList then ["level-baixa".toList]
  else []

/-! ## Sample payloads and pages -/

/-- The payload of the comment at line 93. -/
def payloadAlta : JSString :=
  "Cor: Vermelho Muito Escuro | Contaminação: Alta | Intensidade Luz: 45%".toList

/-- A payload in the documented format whose contamination label is none of the three keywords. -/
def payloadBaixa : JSString :=
  "Cor: Verde | Contaminação: Baixa | Intensidade Luz: 45%".toList

/-- A page whose fill element shows a full, high-level bar. -/
def worldFilled : World :=
  { World.initial with thermometerFill :=
      ⟨["thermometer-fill".toList, "level-alta".toList], "100%".toList⟩ }

/-- A payload whose contamination label holds all three keywords, in mixed case. -/
def payloadAllKeywords : JSString :=
  "Cor: Azul | Contaminação: Normal, Muito Claro, MUITO Escuro | Intensidade Luz: 45%".toList

/-- The second sample payload of the specification. -/
def payloadNormal : JSString :=
  "Cor: Azul | Contaminação: Normal | Intensidade Luz: 10%".toList

/-- The third sample payload of the specification. -/
def payloadMuitoClaro : JSString :=
  "Cor: Amarelo Claro | Contaminação: Muito Claro | Intensidade Luz: 80%".toList

/-- A payload whose contamination label holds "normal" and "muito claro" but not "muito escuro". -/
def payloadClaroNormal : JSString :=
  "Cor: Azul | Contaminação: Muito Claro, quase Normal | Intensidade Luz: 10%".toList

/-- The malformed payload of the specification. -/
def payloadOneSegment : JSString := "only one segment".toList

/-- A page whose fill element carries two bucket classes and two other classes. -/
def worldTwoBuckets : World :=
  { World.initial with thermometerFill :=
      ⟨["level-baixa".toList, "thermometer-fill".toList, "level-alta".toList, "glow".toList],
        "33%".toList⟩ }

/-- A device as the chooser hands it over. -/
def sampleDevice : BluetoothDevice := ⟨"ESP32-AguaAnalyzer".toList, []⟩

/-- A page after one successful connection whose poll timer got handle 7. -/
def worldConnected : World :=
  connectToBioGuard World.initial (.established sampleDevice ⟨1⟩ ⟨2, []⟩ 7)

/-! ## The string primitives -/

theorem splitAux_skip (sep : JSString) (s : JSString) (skip : Nat) (cur : JSString) :
    splitAux sep s skip cur = splitAux sep (s.drop skip) 0 cur := by
  induction s generalizing skip with
  | nil => cases skip <;> simp [splitAux]
  | cons c cs ih =>
    cases skip with
    | zero => simp
    | succ n => simp only [splitAux, List.drop_succ_cons]; exact ih n

theorem splitAux_ne_nil (sep : JSString) (s : JSString) (skip : Nat) (cur : JSString) :
    splitAux sep s skip cur ≠ [] := by
  induction s generalizing skip cur with
  | nil => simp [splitAux]
  | cons c cs ih =>
    cases skip with
    | zero =>
      simp only [splitAux]
      split_ifs
      · simp
      · exact ih 0 _
    | succ n => simp only [splitAux]; exact ih n cur

theorem intercalate_cons_of_ne_nil (sep a : JSString) (l : List JSString) (h : l ≠ []) :
    List.intercalate sep (a :: l) = a ++ sep ++ List.intercalate sep l := by
  cases l with
  | nil => exact absurd rfl h
  | cons b l => simp [List.intercalate, List.intersperse]

theorem intercalate_splitAux (sep : JSString) (hsep : sep ≠ []) (n : Nat) :
    ∀ (s cur : JSString), s.length ≤ n →
      List.intercalate sep (splitAux sep s 0 cur) = cur ++ s := by
  induction n with
  | zero =>
    intro s cur hs
    have : s = [] := List.length_eq_zero.mp (Nat.le_zero.mp hs)
    subst this
    simp [splitAux, List.intercalate]
  | succ n ih =>
    intro s cur hs
    cases s with
    | nil => simp [splitAux, List.intercalate]
    | cons c cs =>
      simp only [splitAux]
      split_ifs with hp
      · rw [intercalate_cons_of_ne_nil _ _ _ (splitAux_ne_nil _ _ _ _), splitAux_skip,
          ih _ _ (by simp at hs ⊢; omega)]
        obtain ⟨t, ht⟩ := List.isPrefixOf_iff_prefix.mp hp
        have hl : 0 < sep.length := List.length_pos.mpr hsep
        have hd : cs.drop (sep.length - 1) = t := by
          have h2 : (c :: cs).drop sep.length = t := by
            rw [← ht]; simp
          rw [← h2]
          obtain ⟨k, hk⟩ := Nat.exists_eq_succ_of_ne_zero (Nat.pos_iff_ne_zero.mp hl)
          rw [hk]; simp
        rw [hd, ← ht]; simp
      · rw [ih _ _ (by simp at hs ⊢; omega)]; simp

/-- Joining the segments of `split` with the separator gives the string back. -/
theorem intercalate_split (s sep : JSString) (hsep : sep ≠ []) :
    List.intercalate sep (split s sep) = s := by
  simp only [split, hsep, if_false]
  simpa using intercalate_splitAux sep hsep s.length s [] (Nat.le_refl _)

/-- The model of `includes` finds exactly the occurrences of the pattern. -/
theorem includes_iff (s pat : JSString) :
    includes s pat = true ↔ ∃ a b : JSString, s = a ++ pat ++ b := by
  induction s with
  | nil =>
    simp only [includes, List.isPrefixOf_iff_prefix]
    constructor
    · rintro ⟨t, ht⟩
      exact ⟨[], t, by simpa using ht.symm⟩
    · rintro ⟨a, b, h⟩
      have h1 : a ++ pat ++ b = [] := h.symm
      simp only [List.append_eq_nil] at h1
      exact ⟨[], by simp [h1.1.2]⟩
  | cons c cs ih =>
    simp only [includes, Bool.or_eq_true, List.isPrefixOf_iff_prefix, ih]
    constructor
    · rintro (⟨t, ht⟩ | ⟨a, b, h⟩)
      · exact ⟨[], t, by simpa using ht.symm⟩
      · exact ⟨c :: a, b, by simp [h]⟩
    · rintro ⟨a, b, h⟩
      cases a with
      | nil => exact Or.inl ⟨b, by simpa using h.symm⟩
      | cons x a =>
        simp only [List.cons_append, List.cons.injEq] at h
        exact Or.inr ⟨a, b, h.2⟩

theorem replace_append_left (pat v : JSString) : replace (pat ++ v) pat [] = v := by
  cases hp : pat ++ v with
  | nil =>
    obtain ⟨h1, h2⟩ := List.append_eq_nil.mp hp
    subst h1 h2
    simp [replace]
  | cons c cs =>
    have h1 : pat.isPrefixOf (c :: cs) = true := by
      rw [← hp]; simp
    simp only [replace, h1, if_true, List.nil_append]
    rw [← hp]; simp

/-- On a segment that starts with "Contaminação: " the text of line 109 is the
lowered rest of the segment. -/
theorem contaminacaoNivel_of_prefixed (lower : JSString → JSString) (label : JSString) :
    contaminacaoNivel lower ("Contaminação: ".toList ++ label) = lower label := by
  unfold contaminacaoNivel
  rw [replace_append_left]

theorem replace_of_not_includes (s pat : JSString) (h : includes s pat = false) :
    replace s pat [] = s := by
  induction s with
  | nil => simp [replace]
  | cons c cs ih =>
    simp only [includes, Bool.or_eq_false_iff] at h
    simp [replace, h.1, ih h.2]

/-! ## The payload handler -/

theorem mem_classListRemove (classList tokens : List JSString) (t : JSString) :
    t ∈ classListRemove classList tokens ↔ t ∈ classList ∧ t ∉ tokens := by
  simp [classListRemove]

theorem mem_classListAdd (classList : List JSString) (token t : JSString) :
    t ∈ classListAdd classList token ↔ t ∈ classList ∨ t = token := by
  by_cases h : token ∈ classList
  · have hc : classList.contains token = true := by simpa using h
    simp only [classListAdd, hc, if_true]
    constructor
    · exact Or.inl
    · rintro (h1 | h1)
      · exact h1
      · subst h1; exact h
  · simp [classListAdd, h]

theorem handleDataReceived_fill (lower : JSString → JSString) (w : World) (value : JSString)
    (h3 : 3 ≤ (split value " | ".toList).length) :
    (handleDataReceived lower w value).thermometerFill
      = fillAfter w.thermometerFill.classList (contaminacaoNivel lower (contaminacaoInfoOf value)) := by
  have e100 : numberToString 100 ++ "%".toList = "100%".toList := by decide
  have e66 : numberToString 66 ++ "%".toList = "66%".toList := by decide
  have e33 : numberToString 33 ++ "%".toList = "33%".toList := by decide
  have e0 : numberToString 0 ++ "%".toList = "0%".toList := by decide
  unfold handleDataReceived fillAfter contaminacaoInfoOf bucketClasses
  simp only [h3, if_true, World.log]
  split_ifs <;> simp_all

/-- C1, as stated, fails: on a payload whose contamination text holds none of
the three keywords the handler does write the fill height, a bar at 100%
comes out at 0%. -/
theorem unknown_label_height_overwritten :
    3 ≤ (split payloadBaixa " | ".toList).length ∧
    includes (contaminacaoNivel toLowerCaseAscii (contaminacaoInfoOf payloadBaixa))
      "muito escuro".toList = false ∧
    includes (contaminacaoNivel toLowerCaseAscii (contaminacaoInfoOf payloadBaixa))
      "normal".toList = false ∧
    includes (contaminacaoNivel toLowerCaseAscii (contaminacaoInfoOf payloadBaixa))
      "muito claro".toList = false ∧
    worldFilled.thermometerFill.height = "100%".toList ∧
    (handleDataReceived toLowerCaseAscii worldFilled payloadBaixa).thermometerFill.height
      = "0%".toList ∧
    (handleDataReceived toLowerCaseAscii worldFilled payloadBaixa).thermometerFill.height
      ≠ worldFilled.thermometerFill.height := by
  decide

theorem handleDataReceived_unknown (lower : JSString → JSString) (w : World) (value : JSString)
    (h3 : 3 ≤ (split value " | ".toList).length)
    (hE : includes (contaminacaoNivel lower (contaminacaoInfoOf value)) "muito escuro".toList = false)
    (hN : includes (contaminacaoNivel lower (contaminacaoInfoOf value)) "normal".toList = false)
    (hC : includes (contaminacaoNivel lower (contaminacaoInfoOf value)) "muito claro".toList = false) :
    (handleDataReceived lower w value).thermometerFill
      = ⟨classListRemove w.thermometerFill.classList bucketClasses, "0%".toList⟩ := by
  rw [handleDataReceived_fill lower w value h3]
  simp only [fillAfter, hE, hN, hC, Bool.false_eq_true, if_false]

/-- C1, amended: for a payload of at least three segments whose lowered
contamination text contains none of "muito escuro", "normal", "muito claro",
the handler sets the fill height to 0% whatever it was, and none of the three
bucket classes is on the fill element afterwards. -/
theorem unknown_label_sets_zero (lower : JSString → JSString) (w : World) (value : JSString)
    (h3 : 3 ≤ (split value " | ".toList).length)
    (hE : includes (contaminacaoNivel lower (contaminacaoInfoOf value)) "muito escuro".toList = false)
    (hN : includes (contaminacaoNivel lower (contaminacaoInfoOf value)) "normal".toList = false)
    (hC : includes (contaminacaoNivel lower (contaminacaoInfoOf value)) "muito claro".toList = false) :
    (handleDataReceived lower w value).thermometerFill.height = "0%".toList ∧
    ∀ c ∈ bucketClasses, c ∉ (handleDataReceived lower w value).thermometerFill.classList := by
  rw [handleDataReceived_unknown lower w value h3 hE hN hC]
  refine ⟨rfl, ?_⟩
  intro c hc hmem
  exact ((mem_classListRemove _ _ _).mp hmem).2 hc

theorem unknown_label_sets_zero_witness :
    (handleDataReceived toLowerCaseAscii worldFilled payloadBaixa).thermometerFill.height
      = "0%".toList ∧
    ∀ c ∈ bucketClasses,
      c ∉ (handleDataReceived toLowerCaseAscii worldFilled payloadBaixa).thermometerFill.classList :=
  unknown_label_sets_zero toLowerCaseAscii worldFilled payloadBaixa (by decide) (by decide)
    (by decide) (by decide)

/-- C2: on the payload of the comment at line 93 the classification looks at
the contamination segment, whose lowered text is "alta": no keyword is found,
the fill height comes out as 0% and no bucket class is applied, on any page
and with any `toLowerCase` that lowers ASCII text. -/
theorem documented_payload_unclassified (lower : JSString → JSString) (hl : LowersAscii lower)
    (w : World) :
    contaminacaoNivel lower (contaminacaoInfoOf payloadAlta) = "alta".toList ∧
    (handleDataReceived lower w payloadAlta).thermometerFill.height = "0%".toList ∧
    (handleDataReceived lower w payloadAlta).thermometerFill.height ≠ "100%".toList ∧
    "level-alta".toList ∉ (handleDataReceived lower w payloadAlta).thermometerFill.classList := by
  have hn : contaminacaoNivel lower (contaminacaoInfoOf payloadAlta) = "alta".toList := by
    have e : replace (contaminacaoInfoOf payloadAlta) "Contaminação: ".toList [] = "Alta".toList := by
      decide
    unfold contaminacaoNivel
    rw [e, hl "Alta".toList (by decide)]
    decide
  have h3 : 3 ≤ (split payloadAlta " | ".toList).length := by decide
  have hE : includes "alta".toList "muito escuro".toList = false := by decide
  have hN : includes "alta".toList "normal".toList = false := by decide
  have hC : includes "alta".toList "muito claro".toList = false := by decide
  have hz := handleDataReceived_unknown lower w payloadAlta h3 (by rw [hn]; exact hE)
    (by rw [hn]; exact hN) (by rw [hn]; exact hC)
  rw [hz]
  refine ⟨hn, rfl, (by decide : "0%".toList ≠ "100%".toList), ?_⟩
  intro hmem
  exact ((mem_classListRemove _ _ _).mp hmem).2 (by decide)

theorem documented_payload_unclassified_witness :
    contaminacaoNivel toLowerCaseAscii (contaminacaoInfoOf payloadAlta) = "alta".toList ∧
    (handleDataReceived toLowerCaseAscii worldFilled payloadAlta).thermometerFill.height
      = "0%".toList ∧
    (handleDataReceived toLowerCaseAscii worldFilled payloadAlta).thermometerFill.height
      ≠ "100%".toList ∧
    "level-alta".toList ∉
      (handleDataReceived toLowerCaseAscii worldFilled payloadAlta).thermometerFill.classList :=
  documented_payload_unclassified toLowerCaseAscii (fun _ _ => rfl) worldFilled

theorem bucketsOf_classListRemove (classList : List JSString) :
    bucketsOf (classListRemove classList bucketClasses) = [] := by
  simp [bucketsOf, classListRemove, List.filter_filter, List.filter_eq_nil_iff]

theorem othersOf_classListRemove (classList : List JSString) :
    othersOf (classListRemove classList bucketClasses) = othersOf classList := by
  simp [othersOf, classListRemove, List.filter_filter]

theorem classListAdd_cleared (classList : List JSString) (b : JSString) (hb : b ∈ bucketClasses) :
    classListAdd (classListRemove classList bucketClasses) b
      = classListRemove classList bucketClasses ++ [b] := by
  have h : b ∉ classListRemove classList bucketClasses := fun hm =>
    ((mem_classListRemove _ _ _).mp hm).2 hb
  simp [classListAdd, h]

theorem bucketsOf_add_cleared (classList : List JSString) (b : JSString) (hb : b ∈ bucketClasses) :
    bucketsOf (classListAdd (classListRemove classList bucketClasses) b) = [b] := by
  rw [classListAdd_cleared classList b hb]
  have h := bucketsOf_classListRemove classList
  unfold bucketsOf at h ⊢
  rw [List.filter_append, h]
  simp [hb]

theorem othersOf_add_cleared (classList : List JSString) (b : JSString) (hb : b ∈ bucketClasses) :
    othersOf (classListAdd (classListRemove classList bucketClasses) b) = othersOf classList := by
  rw [classListAdd_cleared classList b hb]
  have h := othersOf_classListRemove classList
  unfold othersOf at h ⊢
  rw [List.filter_append, h]
  simp [hb]

theorem bucketsOf_fillAfter (classList : List JSString) (nivel : JSString) :
    bucketsOf (fillAfter classList nivel).classList = bucketFor nivel := by
  unfold fillAfter bucketFor
  split_ifs
  · exact bucketsOf_add_cleared classList _ (by decide)
  · exact bucketsOf_add_cleared classList _ (by decide)
  · exact bucketsOf_add_cleared classList _ (by decide)
  · exact bucketsOf_classListRemove classList

theorem othersOf_fillAfter (classList : List JSString) (nivel : JSString) :
    othersOf (fillAfter classList nivel).classList = othersOf classList := by
  unfold fillAfter
  split_ifs
  · exact othersOf_add_cleared classList _ (by decide)
  · exact othersOf_add_cleared classList _ (by decide)
  · exact othersOf_add_cleared classList _ (by decide)
  · exact othersOf_classListRemove classList

theorem bucketFor_length (nivel : JSString) : (bucketFor nivel).length ≤ 1 := by
  unfold bucketFor
  split_ifs <;> simp

theorem fillAfter_escuro (classList : List JSString) (nivel : JSString)
    (hE : includes nivel "muito escuro".toList = true) :
    fillAfter classList nivel
      = ⟨classListAdd (classListRemove classList bucketClasses) "level-alta".toList,
          "100%".toList⟩ := by
  simp only [fillAfter, hE, if_true]

theorem fillAfter_normal (classList : List JSString) (nivel : JSString)
    (hE : includes nivel "muito escuro".toList = false)
    (hN : includes nivel "normal".toList = true) :
    fillAfter classList nivel
      = ⟨classListAdd (classListRemove classList bucketClasses) "level-media".toList,
          "66%".toList⟩ := by
  simp only [fillAfter, hE, hN, if_true, Bool.false_eq_true, if_false]

theorem fillAfter_claro (classList : List JSString) (nivel : JSString)
    (hE : includes nivel "muito escuro".toList = false)
    (hN : includes nivel "normal".toList = false)
    (hC : includes nivel "muito claro".toList = true) :
    fillAfter classList nivel
      = ⟨classListAdd (classListRemove classList bucketClasses) "level-baixa".toList,
          "33%".toList⟩ := by
  simp only [fillAfter, hE, hN, hC, if_true, Bool.false_eq_true, if_false]

theorem only_bucket_of_add_cleared (classList : List JSString) (b c : JSString)
    (hc : c ∈ bucketClasses) (hne : c ≠ b) :
    c ∉ classListAdd (classListRemove classList bucketClasses) b := by
  intro hm
  rcases (mem_classListAdd _ _ _).mp hm with h | h
  · exact ((mem_classListRemove _ _ _).mp h).2 hc
  · exact hne h

/-- C3: for every payload of at least three segments whose contamination text,
as line 109 computes it (first "Contaminação: " removed, then lowered),
contains "muito escuro", the fill height is 100% afterwards and level-alta is
the one bucket class on the fill element, whatever else the label contains and
whatever the prior state. -/
theorem muito_escuro_fills_100 (lower : JSString → JSString) (w : World) (value : JSString)
    (h3 : 3 ≤ (split value " | ".toList).length)
    (hE : includes (contaminacaoNivel lower (contaminacaoInfoOf value)) "muito escuro".toList = true) :
    (handleDataReceived lower w value).thermometerFill.height = "100%".toList ∧
    bucketsOf (handleDataReceived lower w value).thermometerFill.classList
      = ["level-alta".toList] ∧
    "level-alta".toList ∈ (handleDataReceived lower w value).thermometerFill.classList ∧
    "level-media".toList ∉ (handleDataReceived lower w value).thermometerFill.classList ∧
    "level-baixa".toList ∉ (handleDataReceived lower w value).thermometerFill.classList := by
  rw [handleDataReceived_fill lower w value h3]
  rw [fillAfter_escuro _ _ hE]
  refine ⟨rfl, bucketsOf_add_cleared _ _ (by decide), ?_, ?_, ?_⟩
  · exact (mem_classListAdd _ _ _).mpr (Or.inr rfl)
  · exact only_bucket_of_add_cleared _ _ _ (by decide) (by decide)
  · exact only_bucket_of_add_cleared _ _ _ (by decide) (by decide)

theorem muito_escuro_fills_100_witness :
    includes (contaminacaoNivel toLowerCaseAscii (contaminacaoInfoOf payloadAllKeywords))
      "normal".toList = true ∧
    (handleDataReceived toLowerCaseAscii worldFilled payloadAllKeywords).thermometerFill.height
      = "100%".toList ∧
    bucketsOf (handleDataReceived toLowerCaseAscii worldFilled payloadAllKeywords).thermometerFill.classList
      = ["level-alta".toList] ∧
    "level-alta".toList ∈
      (handleDataReceived toLowerCaseAscii worldFilled payloadAllKeywords).thermometerFill.classList ∧
    "level-media".toList ∉
      (handleDataReceived toLowerCaseAscii worldFilled payloadAllKeywords).thermometerFill.classList ∧
    "level-baixa".toList ∉
      (handleDataReceived toLowerCaseAscii worldFilled payloadAllKeywords).thermometerFill.classList :=
  ⟨by decide,
    muito_escuro_fills_100 toLowerCaseAscii worldFilled payloadAllKeywords (by decide) (by decide)⟩

theorem handleDataReceived_normal (lower : JSString → JSString) (w : World) (value : JSString)
    (h3 : 3 ≤ (split value " | ".toList).length)
    (hE : includes (contaminacaoNivel lower (contaminacaoInfoOf value)) "muito escuro".toList = false)
    (hN : includes (contaminacaoNivel lower (contaminacaoInfoOf value)) "normal".toList = true) :
    (handleDataReceived lower w value).thermometerFill.height = "66%".toList ∧
    bucketsOf (handleDataReceived lower w value).thermometerFill.classList
      = ["level-media".toList] ∧
    "level-media".toList ∈ (handleDataReceived lower w value).thermometerFill.classList ∧
    "level-alta".toList ∉ (handleDataReceived lower w value).thermometerFill.classList ∧
    "level-baixa".toList ∉ (handleDataReceived lower w value).thermometerFill.classList := by
  rw [handleDataReceived_fill lower w value h3, fillAfter_normal _ _ hE hN]
  refine ⟨rfl, bucketsOf_add_cleared _ _ (by decide), ?_, ?_, ?_⟩
  · exact (mem_classListAdd _ _ _).mpr (Or.inr rfl)
  · exact only_bucket_of_add_cleared _ _ _ (by decide) (by decide)
  · exact only_bucket_of_add_cleared _ _ _ (by decide) (by decide)

theorem handleDataReceived_claro (lower : JSString → JSString) (w : World) (value : JSString)
    (h3 : 3 ≤ (split value " | ".toList).length)
    (hE : includes (contaminacaoNivel lower (contaminacaoInfoOf value)) "muito escuro".toList = false)
    (hN : includes (contaminacaoNivel lower (contaminacaoInfoOf value)) "normal".toList = false)
    (hC : includes (contaminacaoNivel lower (contaminacaoInfoOf value)) "muito claro".toList = true) :
    (handleDataReceived lower w value).thermometerFill.height = "33%".toList ∧
    bucketsOf (handleDataReceived lower w value).thermometerFill.classList
      = ["level-baixa".toList] ∧
    "level-baixa".toList ∈ (handleDataReceived lower w value).thermometerFill.classList ∧
    "level-alta".toList ∉ (handleDataReceived lower w value).thermometerFill.classList ∧
    "level-media".toList ∉ (handleDataReceived lower w value).thermometerFill.classList := by
  rw [handleDataReceived_fill lower w value h3, fillAfter_claro _ _ hE hN hC]
  refine ⟨rfl, bucketsOf_add_cleared _ _ (by decide), ?_, ?_, ?_⟩
  · exact (mem_classListAdd _ _ _).mpr (Or.inr rfl)
  · exact only_bucket_of_add_cleared _ _ _ (by decide) (by decide)
  · exact only_bucket_of_add_cleared _ _ _ (by decide) (by decide)

/-- C4: classification is first-match-wins in the order "muito escuro",
"normal", "muito claro".  For a payload of at least three segments: a lowered
contamination text with "normal" and without "muito escuro" gives 66% and
level-media as the one bucket class; one with "muito claro" and without the
other two gives 33% and level-baixa as the one bucket class.  The two sample
payloads give 66%/media and 33%/baixa on every page. -/
theorem first_match_wins (lower : JSString → JSString) (hl : LowersAscii lower) (w : World)
    (value : JSString) (h3 : 3 ≤ (split value " | ".toList).length) :
    (includes (contaminacaoNivel lower (contaminacaoInfoOf value)) "muito escuro".toList = false →
      includes (contaminacaoNivel lower (contaminacaoInfoOf value)) "normal".toList = true →
      (handleDataReceived lower w value).thermometerFill.height = "66%".toList ∧
      bucketsOf (handleDataReceived lower w value).thermometerFill.classList
        = ["level-media".toList] ∧
      "level-media".toList ∈ (handleDataReceived lower w value).thermometerFill.classList ∧
      "level-alta".toList ∉ (handleDataReceived lower w value).thermometerFill.classList ∧
      "level-baixa".toList ∉ (handleDataReceived lower w value).thermometerFill.classList) ∧
    (includes (contaminacaoNivel lower (contaminacaoInfoOf value)) "muito escuro".toList = false →
      includes (contaminacaoNivel lower (contaminacaoInfoOf value)) "normal".toList = false →
      includes (contaminacaoNivel lower (contaminacaoInfoOf value)) "muito claro".toList = true →
      (handleDataReceived lower w value).thermometerFill.height = "33%".toList ∧
      bucketsOf (handleDataReceived lower w value).thermometerFill.classList
        = ["level-baixa".toList] ∧
      "level-baixa".toList ∈ (handleDataReceived lower w value).thermometerFill.classList ∧
      "level-alta".toList ∉ (handleDataReceived lower w value).thermometerFill.classList ∧
      "level-media".toList ∉ (handleDataReceived lower w value).thermometerFill.classList) ∧
    ((handleDataReceived lower w payloadNormal).thermometerFill.height = "66%".toList ∧
      bucketsOf (handleDataReceived lower w payloadNormal).thermometerFill.classList
        = ["level-media".toList]) ∧
    ((handleDataReceived lower w payloadMuitoClaro).thermometerFill.height = "33%".toList ∧
      bucketsOf (handleDataReceived lower w payloadMuitoClaro).thermometerFill.classList
        = ["level-baixa".toList]) := by
  refine ⟨handleDataReceived_normal lower w value h3,
    handleDataReceived_claro lower w value h3, ?_, ?_⟩
  · have hn : contaminacaoNivel lower (contaminacaoInfoOf payloadNormal) = "normal".toList := by
      have e : replace (contaminacaoInfoOf payloadNormal) "Contaminação: ".toList []
          = "Normal".toList := by decide
      unfold contaminacaoNivel
      rw [e, hl "Normal".toList (by decide)]
      decide
    have h := handleDataReceived_normal lower w payloadNormal (by decide)
      (by rw [hn]; decide) (by rw [hn]; decide)
    exact ⟨h.1, h.2.1⟩
  · have hn : contaminacaoNivel lower (contaminacaoInfoOf payloadMuitoClaro)
        = "muito claro".toList := by
      have e : replace (contaminacaoInfoOf payloadMuitoClaro) "Contaminação: ".toList []
          = "Muito Claro".toList := by decide
      unfold contaminacaoNivel
      rw [e, hl "Muito Claro".toList (by decide)]
      decide
    have h := handleDataReceived_claro lower w payloadMuitoClaro (by decide)
      (by rw [hn]; decide) (by rw [hn]; decide) (by rw [hn]; decide)
    exact ⟨h.1, h.2.1⟩

theorem first_match_wins_witness :
    includes (contaminacaoNivel toLowerCaseAscii (contaminacaoInfoOf payloadClaroNormal))
      "muito claro".toList = true ∧
    (handleDataReceived toLowerCaseAscii worldFilled payloadClaroNormal).thermometerFill.height
      = "66%".toList ∧
    bucketsOf (handleDataReceived toLowerCaseAscii worldFilled payloadClaroNormal).thermometerFill.classList
      = ["level-media".toList] ∧
    (handleDataReceived toLowerCaseAscii worldFilled payloadNormal).thermometerFill.height
      = "66%".toList ∧
    (handleDataReceived toLowerCaseAscii worldFilled payloadMuitoClaro).thermometerFill.height
      = "33%".toList :=
  have h := first_match_wins toLowerCaseAscii (fun _ _ => rfl) worldFilled payloadClaroNormal
    (by decide)
  ⟨by decide, (h.1 (by decide) (by decide)).1, (h.1 (by decide) (by decide)).2.1,
    h.2.2.1.1, h.2.2.2.1⟩

theorem handleDataReceived_texts (lower : JSString → JSString) (w : World) (value : JSString)
    (h3 : 3 ≤ (split value " | ".toList).length) :
    (handleDataReceived lower w value).rgbDataElement
      = ⟨"<div>".toList ++ (split value " | ".toList).getD 0 [] ++ "</div><div>".toList
          ++ (split value " | ".toList).getD 1 [] ++ "</div>".toList⟩ ∧
    (handleDataReceived lower w value).ldrValueElement
      = ⟨replace ((split value " | ".toList).getD 2 []) "Intensidade Luz: ".toList []⟩ := by
  unfold handleDataReceived
  simp only [h3, if_true, World.log, and_self]

/-- C5: for every payload that splits into fewer than three segments the
handler returns normally having written to no presentation target: summary
block, light text, class list and height of the fill element are as before;
the page differs from the prior one by two console entries only. -/
theorem short_payload_no_write (lower : JSString → JSString) (w : World) (value : JSString)
    (h : (split value " | ".toList).length < 3) :
    (handleDataReceived lower w value).rgbDataElement = w.rgbDataElement ∧
    (handleDataReceived lower w value).ldrValueElement = w.ldrValueElement ∧
    (handleDataReceived lower w value).thermometerFill.classList = w.thermometerFill.classList ∧
    (handleDataReceived lower w value).thermometerFill.height = w.thermometerFill.height ∧
    handleDataReceived lower w value
      = { w with console := w.console ++
          [⟨.log, [.text "Dados recebidos:".toList, .text value]⟩,
           ⟨.warn, [.text "Formato de dados inesperado:".toList, .text value]⟩] } := by
  have h3 : ¬ 3 ≤ (split value " | ".toList).length := Nat.not_le.mpr h
  simp only [handleDataReceived, h3, if_false, World.log, List.append_assoc, List.singleton_append,
    and_self]

theorem short_payload_no_write_witness :
    (split payloadOneSegment " | ".toList).length = 1 ∧
    (handleDataReceived toLowerCaseAscii worldFilled payloadOneSegment).rgbDataElement
      = worldFilled.rgbDataElement ∧
    (handleDataReceived toLowerCaseAscii worldFilled payloadOneSegment).ldrValueElement
      = worldFilled.ldrValueElement ∧
    (handleDataReceived toLowerCaseAscii worldFilled payloadOneSegment).thermometerFill.classList
      = worldFilled.thermometerFill.classList ∧
    (handleDataReceived toLowerCaseAscii worldFilled payloadOneSegment).thermometerFill.height
      = worldFilled.thermometerFill.height ∧
    handleDataReceived toLowerCaseAscii worldFilled payloadOneSegment
      = { worldFilled with console := worldFilled.console ++
          [⟨.log, [.text "Dados recebidos:".toList, .text payloadOneSegment]⟩,
           ⟨.warn, [.text "Formato de dados inesperado:".toList, .text payloadOneSegment]⟩] } :=
  ⟨by decide, short_payload_no_write toLowerCaseAscii worldFilled payloadOneSegment (by decide)⟩

/-- C6: for every payload that splits into s0, s1, s2 and possibly more, the
handler writes the summary block as s0 and s1, each verbatim in a `div` of its
own, and the light text as s2 with the first "Intensidade Luz: " removed: when
s2 is "Intensidade Luz: " followed by v the light text is v, and when s2 does
not contain "Intensidade Luz: " the light text is s2. -/
theorem summary_and_light_text (lower : JSString → JSString) (w : World)
    (value s0 s1 s2 : JSString) (rest : List JSString)
    (h : split value " | ".toList = s0 :: s1 :: s2 :: rest) :
    (handleDataReceived lower w value).rgbDataElement.innerHTML
      = "<div>".toList ++ s0 ++ "</div><div>".toList ++ s1 ++ "</div>".toList ∧
    (handleDataReceived lower w value).ldrValueElement.textContent
      = replace s2 "Intensidade Luz: ".toList [] ∧
    (∀ v : JSString, s2 = "Intensidade Luz: ".toList ++ v →
      (handleDataReceived lower w value).ldrValueElement.textContent = v) ∧
    (includes s2 "Intensidade Luz: ".toList = false →
      (handleDataReceived lower w value).ldrValueElement.textContent = s2) := by
  have h3 : 3 ≤ (split value " | ".toList).length := by rw [h]; simp
  have hs := handleDataReceived_texts lower w value h3
  rw [h] at hs
  have e : (handleDataReceived lower w value).ldrValueElement.textContent
      = replace s2 "Intensidade Luz: ".toList [] := by
    rw [hs.2]; rfl
  refine ⟨?_, e, ?_, ?_⟩
  · rw [hs.1]; rfl
  · intro v hv
    rw [e, hv, replace_append_left]
  · intro hn
    rw [e, replace_of_not_includes _ _ hn]

theorem summary_and_light_text_witness :
    (handleDataReceived toLowerCaseAscii worldFilled payloadAlta).rgbDataElement.innerHTML
      = "<div>Cor: Vermelho Muito Escuro</div><div>Contaminação: Alta</div>".toList ∧
    (handleDataReceived toLowerCaseAscii worldFilled payloadAlta).ldrValueElement.textContent
      = "45%".toList :=
  have h := summary_and_light_text toLowerCaseAscii worldFilled payloadAlta
    "Cor: Vermelho Muito Escuro".toList "Contaminação: Alta".toList
    "Intensidade Luz: 45%".toList [] (by decide)
  ⟨h.1, h.2.2.1 "45%".toList rfl⟩

theorem mem_bucketsOf (classList : List JSString) (c : JSString) :
    c ∈ bucketsOf classList ↔ c ∈ classList ∧ c ∈ bucketClasses := by
  simp [bucketsOf]

/-- C7: for every payload of at least three segments and every prior class
list, the fill element afterwards carries at most one bucket class; which one
(if any) is a function of the payload alone, the same from every prior page;
and the classes that are not bucket classes are exactly those of before, in
the same order. -/
theorem bucket_classes_cleared_then_one (lower : JSString → JSString) (w : World)
    (value : JSString) (h3 : 3 ≤ (split value " | ".toList).length) :
    (bucketsOf (handleDataReceived lower w value).thermometerFill.classList).length ≤ 1 ∧
    (∀ a ∈ bucketClasses, ∀ b ∈ bucketClasses,
      a ∈ (handleDataReceived lower w value).thermometerFill.classList →
      b ∈ (handleDataReceived lower w value).thermometerFill.classList → a = b) ∧
    bucketsOf (handleDataReceived lower w value).thermometerFill.classList
      = bucketFor (contaminacaoNivel lower (contaminacaoInfoOf value)) ∧
    (∀ w2 : World, bucketsOf (handleDataReceived lower w2 value).thermometerFill.classList
      = bucketsOf (handleDataReceived lower w value).thermometerFill.classList) ∧
    othersOf (handleDataReceived lower w value).thermometerFill.classList
      = othersOf w.thermometerFill.classList := by
  have hb : ∀ w1 : World, bucketsOf (handleDataReceived lower w1 value).thermometerFill.classList
      = bucketFor (contaminacaoNivel lower (contaminacaoInfoOf value)) := by
    intro w1
    rw [handleDataReceived_fill lower w1 value h3, bucketsOf_fillAfter]
  have hlen : (bucketsOf (handleDataReceived lower w value).thermometerFill.classList).length ≤ 1 := by
    rw [hb w]; exact bucketFor_length _
  refine ⟨hlen, ?_, hb w, fun w2 => by rw [hb w2, hb w], ?_⟩
  · intro a ha b hb2 hma hmb
    have h1 := (mem_bucketsOf _ _).mpr ⟨hma, ha⟩
    have h2 := (mem_bucketsOf _ _).mpr ⟨hmb, hb2⟩
    match hl : bucketsOf (handleDataReceived lower w value).thermometerFill.classList with
    | [] => rw [hl] at h1; simp at h1
    | [x] =>
      rw [hl] at h1 h2
      rw [List.mem_singleton.mp h1, List.mem_singleton.mp h2]
    | _ :: _ :: _ => rw [hl] at hlen; simp at hlen
  · rw [handleDataReceived_fill lower w value h3, othersOf_fillAfter]

theorem bucket_classes_cleared_then_one_witness :
    (handleDataReceived toLowerCaseAscii worldTwoBuckets payloadNormal).thermometerFill.classList
      = ["thermometer-fill".toList, "glow".toList, "level-media".toList] ∧
    (bucketsOf (handleDataReceived toLowerCaseAscii worldTwoBuckets payloadNormal).thermometerFill.classList).length
      ≤ 1 ∧
    (∀ w2 : World,
      bucketsOf (handleDataReceived toLowerCaseAscii w2 payloadNormal).thermometerFill.classList
      = bucketsOf (handleDataReceived toLowerCaseAscii worldTwoBuckets payloadNormal).thermometerFill.classList) ∧
    othersOf (handleDataReceived toLowerCaseAscii worldTwoBuckets payloadNormal).thermometerFill.classList
      = othersOf worldTwoBuckets.thermometerFill.classList :=
  have h := bucket_classes_cleared_then_one toLowerCaseAscii worldTwoBuckets payloadNormal
    (by decide)
  ⟨by decide, h.1, h.2.2.2.1, h.2.2.2.2⟩

/-! ## The session -/

theorem connectToBioGuard_session (w : World) (outcome : ConnectOutcome) :
    ((connectToBioGuard w outcome).isConnected = w.isConnected ∧
      (connectToBioGuard w outcome).dataReadInterval = w.dataReadInterval) ∨
    ((connectToBioGuard w outcome).isConnected = true ∧
      ∃ timer, (connectToBioGuard w outcome).dataReadInterval = some timer) := by
  cases outcome with
  | established device server char timer => exact Or.inr ⟨rfl, timer, rfl⟩
  | _ => exact Or.inl ⟨rfl, rfl⟩

theorem onDisconnected_session (w : World) :
    (onDisconnected w).isConnected = false ∧ (onDisconnected w).dataReadInterval = none := by
  unfold onDisconnected
  cases h : w.dataReadInterval <;> simp [updateStatus, World.log, h]

theorem readCharacteristicValue_session (w : World) (readError : Option JSError) :
    (readCharacteristicValue w readError).isConnected = w.isConnected ∧
    (readCharacteristicValue w readError).dataReadInterval = w.dataReadInterval := by
  unfold readCharacteristicValue
  split_ifs
  · cases readError <;> exact ⟨rfl, rfl⟩
  · exact ⟨rfl, rfl⟩

theorem handleDataReceived_session (lower : JSString → JSString) (w : World) (value : JSString) :
    (handleDataReceived lower w value).isConnected = w.isConnected ∧
    (handleDataReceived lower w value).dataReadInterval = w.dataReadInterval := by
  unfold handleDataReceived
  simp only [World.log]
  split_ifs <;> exact ⟨rfl, rfl⟩

/-- C8: in every state reachable from the initial one by calls of
`connectToBioGuard` (with any outcome), `onDisconnected`,
`readCharacteristicValue` and `handleDataReceived`, `dataReadInterval` is
non-null exactly when `isConnected` is true. -/
theorem timer_iff_connected (lower : JSString → JSString) (w : World)
    (h : Reachable lower w) : w.dataReadInterval ≠ none ↔ w.isConnected = true := by
  induction h with
  | init w hi =>
    obtain ⟨_, _, _, hc, ht⟩ := hi
    simp [hc, ht]
  | step w w2 _ hs ih =>
    cases hs with
    | connectToBioGuard outcome =>
      rcases connectToBioGuard_session w outcome with ⟨h1, h2⟩ | ⟨h1, timer, h2⟩
      · rw [h1, h2]; exact ih
      · rw [h1, h2]; simp
    | onDisconnected =>
      obtain ⟨h1, h2⟩ := onDisconnected_session w
      rw [h1, h2]; simp
    | readCharacteristicValue readError =>
      obtain ⟨h1, h2⟩ := readCharacteristicValue_session w readError
      rw [h1, h2]; exact ih
    | handleDataReceived value =>
      obtain ⟨h1, h2⟩ := handleDataReceived_session lower w value
      rw [h1, h2]; exact ih

theorem timer_iff_connected_witness :
    worldConnected.isConnected = true ∧ worldConnected.dataReadInterval = some 7 ∧
    (worldConnected.dataReadInterval ≠ none ↔ worldConnected.isConnected = true) :=
  ⟨rfl, rfl, timer_iff_connected toLowerCaseAscii worldConnected
    (Reachable.step World.initial worldConnected
      (Reachable.init World.initial (by decide))
      (Step.connectToBioGuard World.initial _))⟩

/-- C9, as stated, fails: after the disconnect callback on a connected page
the three handles are still set. -/
theorem onDisconnected_keeps_handles :
    worldConnected.bluetoothDevice ≠ none ∧
    (onDisconnected worldConnected).bluetoothDevice ≠ none ∧
    (onDisconnected worldConnected).bluetoothServer ≠ none ∧
    (onDisconnected worldConnected).characteristic ≠ none := by
  decide

/-- C9, amended: after `onDisconnected` from any state `isConnected` is false,
`dataReadInterval` is null and the interval it held is no longer active; the
handles `bluetoothDevice`, `bluetoothServer` and `characteristic` are left as
they were. -/
theorem onDisconnected_teardown (w : World) :
    (onDisconnected w).isConnected = false ∧
    (onDisconnected w).dataReadInterval = none ∧
    (∀ id : TimerId, w.dataReadInterval = some id → id ∉ (onDisconnected w).timers) ∧
    (onDisconnected w).bluetoothDevice = w.bluetoothDevice ∧
    (onDisconnected w).bluetoothServer = w.bluetoothServer ∧
    (onDisconnected w).characteristic = w.characteristic := by
  unfold onDisconnected
  cases h : w.dataReadInterval with
  | none => simp [updateStatus, World.log, h]
  | some t => simp [updateStatus, World.log, h, clearInterval]

/-- C10: running `onDisconnected` a second time changes nothing but the
console: `isConnected`, `dataReadInterval`, the button (label, enabled state,
click handler), the status (text and class) and the active timers are those
left by the first run; the second run adds the one console line of line 147
and not that of the `clearInterval` branch; `dataReadInterval` is null after
each run. -/
theorem onDisconnected_idempotent (w : World) :
    (onDisconnected (onDisconnected w)).isConnected = (onDisconnected w).isConnected ∧
    (onDisconnected (onDisconnected w)).dataReadInterval = (onDisconnected w).dataReadInterval ∧
    (onDisconnected (onDisconnected w)).connectBtn = (onDisconnected w).connectBtn ∧
    (onDisconnected (onDisconnected w)).statusElement = (onDisconnected w).statusElement ∧
    (onDisconnected (onDisconnected w)).timers = (onDisconnected w).timers ∧
    onDisconnected (onDisconnected w)
      = (onDisconnected w).log .log [.text "Dispositivo Bluetooth desconectado.".toList] ∧
    (onDisconnected w).dataReadInterval = none ∧
    (onDisconnected (onDisconnected w)).dataReadInterval = none := by
  have key : onDisconnected (onDisconnected w)
      = (onDisconnected w).log .log [.text "Dispositivo Bluetooth desconectado.".toList] := by
    unfold onDisconnected
    cases h : w.dataReadInterval <;> simp [updateStatus, World.log, h]
  have h1 := (onDisconnected_session w).2
  rw [key]
  exact ⟨rfl, rfl, rfl, rfl, rfl, rfl, h1, h1⟩

end BioGuard
